import Mathlib

/-!
Shallow embedding of the gadgetbridge-influxdb-exporter telemetry
normalization layer (src/models.py, src/gadgetbridge.py, src/main.py,
src/zepp.py), together with theorems settling the frozen claims about it.

Conventions of the embedding:
* Python `Optional[int]` values become `Option Int`; absence (`None`) is
  `none`.  Python truthiness of such a value (`if sample.steps:`) is
  `truthy`: `None` and `0` are falsy, every other integer is truthy.
* An influxdb `Point` is its mutable state after construction: measurement
  name, time, the `_tags` dict and the `_fields` dict.  Python dicts keep
  insertion order and overwrite in place, which `upsert` reproduces.
  `Point.field` stores the value it is given, including `None`
  (`self._fields[field] = value` in the client library), hence field
  values are `Option Int`.
* Python `datetime` values are modelled as integer microseconds since the
  epoch (the resolution of `datetime`), with the process timezone taken
  to be UTC.  `datetime.fromtimestamp(ts)` for integer `ts` is
  `ts * 1000000`; `datetime.fromtimestamp(ts / 1000)` is true division of
  milliseconds, i.e. exactly `ts * 1000` microseconds.
-/

/-- Truthiness of a Python `Optional[int]`: `None` and `0` are falsy. -/
def truthy : Option Int → Bool
  | none => false
  | some n => n != 0

/-- Python `str(x)` for an `Optional[int]`: `str(None)` is the literal
string `None`. -/
def pyStr : Option Int → String
  | none => "None"
  | some n => toString n

/-- Python `x or default` for an optional string: `None` and the empty
string are falsy and fall through to the default. -/
def pyOr : Option String → String → String
  | none, dflt => dflt
  | some s, dflt => if s = "" then dflt else s

/-- Insert-or-replace on an association list, reproducing Python dict
assignment `d[k] = v`: an existing key keeps its position and gets the
new value, a new key is appended at the end. -/
def upsert {α : Type} : List (String × α) → String → α → List (String × α)
  | [], k, v => [(k, v)]
  | (k', v') :: rest, k, v =>
      if k' = k then (k, v) :: rest else (k', v') :: upsert rest k v

/-- State of an `influxdb_client.Point` after the builder calls made by this
repository: measurement name, time in microseconds since the epoch, the
tags dict and the fields dict. -/
structure Point where
  measurement : String
  time : Int
  tags : List (String × String)
  fields : List (String × Option Int)
deriving Repr, DecidableEq

/-- Model of `Point.tag(key, value)`: dict assignment on the tags. -/
def Point.tag (p : Point) (k : String) (v : String) : Point :=
  { p with tags := upsert p.tags k v }

/-- Model of `Point.field(field, value)`: dict assignment on the fields;
the value is stored as given, `None` included. -/
def Point.field (p : Point) (k : String) (v : Option Int) : Point :=
  { p with fields := upsert p.fields k v }

/-- The tag loop `for key, value in tags.items(): point = point.tag(key, value)`
that every synthesizer in src/models.py and src/main.py runs. -/
def applyTags (tags : List (String × String)) (p : Point) : Point :=
  tags.foldl (fun q kv => q.tag kv.1 kv.2) p

/-- The recurring pattern `if sample.x: point = point.field(name, sample.x)`
of the synthesizers in src/models.py. -/
def condField (p : Point) (v : Option Int) (name : String) : Point :=
  if truthy v then p.field name v else p

/-- Value of a tag key on a point, if present. -/
def Point.tagVal (p : Point) (k : String) : Option String :=
  (p.tags.find? (fun kv => kv.1 == k)).map (fun kv => kv.2)

/-- The `ACTIVITY_SAMPLE` schema record of src/models.py (class
`ActivitySample`): only `TIMESTAMP` is required, every measurement is
optional and defaults to absent. -/
structure ActivitySample where
  timestamp : Int
  device_id : Option Int := none
  user_id : Option Int := none
  raw_intensity : Option Int := none
  steps : Option Int := none
  raw_kind : Option Int := none
  heart_rate : Option Int := none
  unknown1 : Option Int := none
  sleep : Option Int := none
  deep_sleep : Option Int := none
  rem_sleep : Option Int := none
  stress : Option Int := none
  spo2 : Option Int := none
  calories : Option Int := none
deriving Repr, DecidableEq

/-- `ActivitySample.datetime` of src/models.py:
`datetime.fromtimestamp(self.timestamp)` — the raw timestamp is taken as
epoch seconds, with no division; in microseconds. -/
def ActivitySample.datetimeUs (s : ActivitySample) : Int :=
  s.timestamp * 1000000

/-- `ActivitySample.has_valid_heart_rate` of src/models.py:
`self.heart_rate != 255 and self.heart_rate != 0`.  Note that in Python
`None != 255` and `None != 0` both hold, so an absent heart rate counts
as valid. -/
def ActivitySample.has_valid_heart_rate (s : ActivitySample) : Bool :=
  s.heart_rate != some 255 && s.heart_rate != some 0

/-- The Python condition `steps and steps > 0` on an optional int. -/
def stepsPositive : Option Int → Bool
  | none => false
  | some n => n != 0 && 0 < n

/-- `ActivitySample.to_influxdb_points` of src/models.py, lines 233-293:
a heart-rate point when the heart rate is valid, a steps point when steps
is truthy and positive, and always the aggregate `activity_sample` point
accumulating every truthy measurement as a field. -/
def ActivitySample.to_influxdb_points (sample : ActivitySample)
    (tags : List (String × String)) : List Point :=
  let point0 := applyTags tags (Point.mk "activity_sample" sample.datetimeUs [] [])
  let hrPoints :=
    if sample.has_valid_heart_rate then
      [applyTags tags ((Point.mk "heart_rate" sample.datetimeUs [] []).field
        "heart_rate" sample.heart_rate)]
    else []
  let point1 :=
    if sample.has_valid_heart_rate then
      point0.field "heart_rate" sample.heart_rate
    else point0
  let stepsPoints :=
    if stepsPositive sample.steps then
      [applyTags tags ((Point.mk "steps" sample.datetimeUs [] []).field
        "steps" sample.steps)]
    else []
  let point2 :=
    if stepsPositive sample.steps then point1.field "steps" sample.steps else point1
  let point3 := condField point2 sample.stress "stress"
  let point4 := condField point3 sample.spo2 "spo2"
  let point5 := condField point4 sample.raw_intensity "raw_intensity"
  let point6 := condField point5 sample.sleep "sleep"
  let point7 := condField point6 sample.deep_sleep "deep_sleep"
  let point8 := condField point7 sample.rem_sleep "rem_sleep"
  let point9 := condField point8 sample.raw_kind "raw_kind"
  hrPoints ++ stepsPoints ++ [point9]

/-- The `XIAOMI_SLEEP_STAGE_SAMPLE` schema record of src/models.py. -/
structure XiaomiSleepStageSample where
  timestamp : Int
  device_id : Option Int := none
  user_id : Option Int := none
  stage : Option Int := none
deriving Repr, DecidableEq

/-- `XiaomiSleepStageSample.to_influxdb_points` of src/models.py, lines
144-156: one point whose time is
`datetime.fromtimestamp(timestamp / 1000)` (true division of
milliseconds, hence `timestamp * 1000` microseconds), carrying a `stage`
field when the stage is truthy; the point is returned unconditionally. -/
def XiaomiSleepStageSample.to_influxdb_points (sample : XiaomiSleepStageSample)
    (tags : List (String × String)) : List Point :=
  let point := applyTags tags
    (Point.mk "xiaomi_sleep_stage_sample" (sample.timestamp * 1000) [] [])
  let point := condField point sample.stage "stage"
  [point]

/-- The `XIAOMI_DAILY_SUMMARY_SAMPLE` schema record of src/models.py. -/
structure XiaomiDailySummarySample where
  timestamp : Int
  device_id : Option Int := none
  user_id : Option Int := none
  steps : Option Int := none
  heart_rate_resting : Option Int := none
  heart_rate_max : Option Int := none
  heart_rate_max_timestamp : Option Int := none
  heart_rate_min : Option Int := none
  heart_rate_min_timestamp : Option Int := none
  heart_rate_average : Option Int := none
  stress_max : Option Int := none
  stress_min : Option Int := none
  stress_average : Option Int := none
  calories : Option Int := none
  spo2_max : Option Int := none
  spo2_max_timestamp : Option Int := none
  spo2_min : Option Int := none
  spo2_min_timestamp : Option Int := none
  spo2_average : Option Int := none
  training_load_day : Option Int := none
  training_load_week : Option Int := none
  vitality_increase_light : Option Int := none
  vitality_increase_moderate : Option Int := none
  vitality_increase_high : Option Int := none
  vitality_current : Option Int := none
deriving Repr, DecidableEq

/-- `XiaomiDailySummarySample.to_influxdb_points` of src/models.py, lines
59-135: a single point at `datetime.fromtimestamp(timestamp / 1000)`
(true division of milliseconds, hence `timestamp * 1000` microseconds),
with every truthy measurement added as a field in source order; returned
unconditionally. -/
def XiaomiDailySummarySample.to_influxdb_points (sample : XiaomiDailySummarySample)
    (tags : List (String × String)) : List Point :=
  let p := applyTags tags
    (Point.mk "xiaomi_daily_summary_sample" (sample.timestamp * 1000) [] [])
  let p := condField p sample.steps "steps"
  let p := condField p sample.heart_rate_resting "heart_rate_resting"
  let p := condField p sample.heart_rate_max "heart_rate_max"
  let p := condField p sample.heart_rate_max_timestamp "heart_rate_max_timestamp"
  let p := condField p sample.heart_rate_min "heart_rate_min"
  let p := condField p sample.heart_rate_min_timestamp "heart_rate_min_timestamp"
  let p := condField p sample.heart_rate_average "heart_rate_average"
  let p := condField p sample.stress_max "stress_max"
  let p := condField p sample.stress_min "stress_min"
  let p := condField p sample.stress_average "stress_average"
  let p := condField p sample.calories "calories"
  let p := condField p sample.spo2_max "spo2_max"
  let p := condField p sample.spo2_max_timestamp "spo2_max_timestamp"
  let p := condField p sample.spo2_min "spo2_min"
  let p := condField p sample.spo2_min_timestamp "spo2_min_timestamp"
  let p := condField p sample.spo2_average "spo2_average"
  let p := condField p sample.training_load_day "training_load_day"
  let p := condField p sample.training_load_week "training_load_week"
  let p := condField p sample.vitality_increase_light "vitality_increase_light"
  let p := condField p sample.vitality_increase_moderate "vitality_increase_moderate"
  let p := condField p sample.vitality_increase_high "vitality_increase_high"
  let p := condField p sample.vitality_current "vitality_current"
  [p]

/-- The `XIAOMI_SLEEP_TIME_SAMPLE` schema record of src/models.py. -/
structure XiaomiSleepTimeSample where
  timestamp : Int
  device_id : Option Int := none
  user_id : Option Int := none
  wakeup_time : Option Int := none
  is_awake : Option Int := none
  total_duration : Option Int := none
  deep_sleep_duration : Option Int := none
  light_sleep_duration : Option Int := none
  rem_sleep_duration : Option Int := none
  awake_duration : Option Int := none
deriving Repr, DecidableEq

/-- `XiaomiSleepTimeSample.to_influxdb_points` of src/models.py, lines
175-205: a single point at `datetime.fromtimestamp(timestamp / 1000)`
(true division of milliseconds, hence `timestamp * 1000` microseconds),
with every truthy measurement added as a field; returned
unconditionally. -/
def XiaomiSleepTimeSample.to_influxdb_points (sample : XiaomiSleepTimeSample)
    (tags : List (String × String)) : List Point :=
  let p := applyTags tags
    (Point.mk "xiaomi_sleep_time_sample" (sample.timestamp * 1000) [] [])
  let p := condField p sample.wakeup_time "wakeup_time"
  let p := condField p sample.is_awake "is_awake"
  let p := condField p sample.total_duration "total_duration"
  let p := condField p sample.deep_sleep_duration "deep_sleep_duration"
  let p := condField p sample.light_sleep_duration "light_sleep_duration"
  let p := condField p sample.rem_sleep_duration "rem_sleep_duration"
  let p := condField p sample.awake_duration "awake_duration"
  [p]

/-- Device row of the `DEVICE` table (src/gadgetbridge.py class `Device`),
restricted to the columns read by `get_device_info`. -/
structure Device where
  id : Int
  name : String
  manufacturer : String
  model : Option String
deriving Repr, DecidableEq

/-- Row of the `DEVICE_ATTRIBUTES` table (src/gadgetbridge.py class
`DeviceAttributes`), restricted to the columns read by
`get_device_info`. -/
structure DeviceAttributes where
  device_id : Int
  firmware_version1 : String
deriving Repr, DecidableEq

/-- `DeviceInfo` of src/gadgetbridge.py: name and manufacturer are
required, model and firmware optional. -/
structure DeviceInfo where
  name : String
  manufacturer : String
  model : Option String
  firmware : Option String
deriving Repr, DecidableEq

/-- `DeviceInfo.to_tags` of src/gadgetbridge.py, lines 19-25: exactly four
string-valued tags, with `model or "unknown"` and
`firmware or "unknown"` for the optional fields. -/
def DeviceInfo.to_tags (d : DeviceInfo) : List (String × String) :=
  [("device_name", d.name),
   ("device_manufacturer", d.manufacturer),
   ("device_model", pyOr d.model "unknown"),
   ("device_firmware", pyOr d.firmware "unknown")]

/-- The SQL query of `get_device_info`:
`SELECT d.NAME, d.MANUFACTURER, d.MODEL, da.FIRMWARE_VERSION1 FROM DEVICE d
LEFT JOIN DEVICE_ATTRIBUTES da ON d._id = da.DEVICE_ID WHERE d._id = ?`
followed by `fetchone()`: the first device row with the given id, left
joined against the first matching attributes row (null firmware when
there is none). -/
def queryDeviceJoin (devices : List Device) (attrs : List DeviceAttributes)
    (did : Int) : Option (String × String × Option String × Option String) :=
  match devices.find? (fun d => d.id == did) with
  | none => none
  | some d =>
    match attrs.find? (fun a => a.device_id == did) with
    | none => some (d.name, d.manufacturer, d.model, none)
    | some a => some (d.name, d.manufacturer, d.model, some a.firmware_version1)

/-- `MetricsExporter.get_device_info` of src/gadgetbridge.py, lines 66-92:
the joined row when one exists, otherwise the fallback
`DeviceInfo(name="unknown", manufacturer="unknown", model=None,
firmware=None)`. -/
def get_device_info (devices : List Device) (attrs : List DeviceAttributes)
    (did : Int) : DeviceInfo :=
  match queryDeviceJoin devices attrs did with
  | some (n, m, mo, fw) =>
      { name := n, manufacturer := m, model := mo, firmware := fw }
  | none =>
      { name := "unknown", manufacturer := "unknown", model := none, firmware := none }

/-- Per-sample body of `MetricsExporter.export_metrics` in
src/gadgetbridge.py, lines 190-207: a sample whose `device_id` is falsy
(`if not device_id: continue`, so absent or zero) contributes nothing;
otherwise the common tags are `user_id` (stringified), `source` set to
`gadgetbridge`, then the four device tags, and the sample is expanded by
`to_influxdb_points`.  The device cache only memoizes `get_device_info`,
which is a deterministic read, so it is dropped here. -/
def gadgetbridgeSamplePoints (devices : List Device) (attrs : List DeviceAttributes)
    (sample : ActivitySample) : List Point :=
  match sample.device_id with
  | none => []
  | some did =>
    if did = 0 then []
    else
      sample.to_influxdb_points
        (("user_id", pyStr sample.user_id) :: ("source", "gadgetbridge") ::
          (get_device_info devices attrs did).to_tags)

/-- The batch accumulation of `MetricsExporter.export_metrics` in
src/gadgetbridge.py: points of all samples, in sample order. -/
def gadgetbridgeBatch (devices : List Device) (attrs : List DeviceAttributes)
    (samples : List ActivitySample) : List Point :=
  (samples.map (gadgetbridgeSamplePoints devices attrs)).flatten

/-- The `ActivitySample` record of src/main.py (wristband exporter):
unlike the models.py variant, timestamp, device id, user id, raw
intensity, steps, raw kind and heart rate are all required. -/
structure WActivitySample where
  timestamp : Int
  device_id : Int
  user_id : Int
  raw_intensity : Int
  steps : Int
  raw_kind : Int
  heart_rate : Int
  unknown1 : Option Int := none
  sleep : Option Int := none
  deep_sleep : Option Int := none
  rem_sleep : Option Int := none
  stress : Option Int := none
  spo2 : Option Int := none
deriving Repr, DecidableEq

/-- `ActivitySample.datetime` of src/main.py:
`datetime.fromtimestamp(self.timestamp)`, in microseconds. -/
def WActivitySample.datetimeUs (s : WActivitySample) : Int :=
  s.timestamp * 1000000

/-- `ActivitySample.has_valid_heart_rate` of src/main.py:
`self.heart_rate != 255 and self.heart_rate != 0` on a required int. -/
def WActivitySample.has_valid_heart_rate (s : WActivitySample) : Bool :=
  s.heart_rate != 255 && s.heart_rate != 0

/-- The three-entry `sleep_states` dict of src/main.py, lines 416-420, in
insertion order: light is the generically named `sleep` column (marked
TODO in the source), then deep, then rem. -/
def sleepStates (s : WActivitySample) : List (String × Option Int) :=
  [("light", s.sleep), ("deep", s.deep_sleep), ("rem", s.rem_sleep)]

/-- Per-sample body of `WristbandMetricsExporter.export_metrics` in
src/main.py, lines 358-431: a heart-rate point when the heart rate is
valid, a steps point when steps is positive, `wristband_stress` and
`wristband_spo2` points when truthy (both storing their value under the
field key `steps`, as the source does), an unconditional raw-intensity
point, and — only when the `sleep` column is not None — one
`wristband_sleep_state` point per sleep stage whose value is not None,
tagged `sleep_type` before the common tags and carrying a `duration`
field. -/
def wristbandSamplePoints (sample : WActivitySample)
    (common_tags : List (String × String)) : List Point :=
  let hrPoints :=
    if sample.has_valid_heart_rate then
      [applyTags common_tags ((Point.mk "wristband_heart_rate"
        sample.datetimeUs [] []).field "heart_rate" (some sample.heart_rate))]
    else []
  let stepsPoints :=
    if 0 < sample.steps then
      [applyTags common_tags ((Point.mk "wristband_steps"
        sample.datetimeUs [] []).field "steps" (some sample.steps))]
    else []
  let stressPoints :=
    if truthy sample.stress then
      [applyTags common_tags ((Point.mk "wristband_stress"
        sample.datetimeUs [] []).field "steps" sample.stress)]
    else []
  let spo2Points :=
    if truthy sample.spo2 then
      [applyTags common_tags ((Point.mk "wristband_spo2"
        sample.datetimeUs [] []).field "steps" sample.spo2)]
    else []
  let riPoints :=
    [applyTags common_tags ((Point.mk "wristband_raw_intensity"
      sample.datetimeUs [] []).field "raw_intensity" (some sample.raw_intensity))]
  let sleepPoints :=
    if sample.sleep.isSome then
      (sleepStates sample).foldr (fun st acc =>
        match st.2 with
        | some v =>
            applyTags common_tags (((Point.mk "wristband_sleep_state"
              sample.datetimeUs [] []).tag "sleep_type" st.1).field
              "duration" (some v)) :: acc
        | none => acc) []
    else []
  hrPoints ++ stepsPoints ++ stressPoints ++ spo2Points ++ riPoints ++ sleepPoints

/-- A raw row of an activity-sample table as handed to
`ActivitySample.model_validate(dict(row))` in src/gadgetbridge.py: column
names mapped to integer-or-NULL sqlite values. -/
structure DbRow where
  entries : List (String × Option Int)
deriving Repr, DecidableEq

/-- Value of a column in a raw row: `none` when the column is missing,
`some none` when it is NULL. -/
def DbRow.col (r : DbRow) (k : String) : Option (Option Int) :=
  (r.entries.find? (fun kv => kv.1 == k)).map (fun kv => kv.2)

/-- An optional pydantic field with a column alias: a missing column and a
NULL column both yield the default `None`. -/
def DbRow.optCol (r : DbRow) (k : String) : Option Int :=
  (r.col k).join

/-- `ActivitySample.model_validate(dict(row))` of src/gadgetbridge.py:
pydantic validation against the models.py `ActivitySample` — the
`TIMESTAMP` column is required and must be an integer, every other
column is optional and defaults to absent. -/
def validateActivitySample (r : DbRow) : Except String ActivitySample :=
  match r.col "TIMESTAMP" with
  | some (some ts) =>
    .ok { timestamp := ts
          device_id := r.optCol "DEVICE_ID"
          user_id := r.optCol "USER_ID"
          raw_intensity := r.optCol "RAW_INTENSITY"
          steps := r.optCol "STEPS"
          raw_kind := r.optCol "RAW_KIND"
          heart_rate := r.optCol "HEART_RATE"
          unknown1 := r.optCol "UNKNOWN1"
          sleep := r.optCol "SLEEP"
          deep_sleep := r.optCol "DEEP_SLEEP"
          rem_sleep := r.optCol "REM_SLEEP"
          stress := r.optCol "STRESS"
          spo2 := r.optCol "SPO2"
          calories := r.optCol "CALORIES" }
  | _ => .error "validation error: TIMESTAMP field required"

/-- The row loop of `MetricsExporter.get_huami_activity_samples` (and
identically `get_xiaomi_activity_samples`) in src/gadgetbridge.py, lines
121-128: each row is validated inside a `try`; a failure is logged and
`continue`d, so the remaining rows are still processed. -/
def get_huami_activity_samples : List DbRow → List ActivitySample
  | [] => []
  | r :: rs =>
    match validateActivitySample r with
    | .ok s => s :: get_huami_activity_samples rs
    | .error _ => get_huami_activity_samples rs

/-- A decoded CSV row of an `ACTIVITY_MINUTE` file in the Zepp archive
(src/zepp.py): the BOM-prefixed date column, the time column and the
steps column, all raw strings. -/
structure ZeppMinuteRow where
  date : String
  time : String
  steps : String
deriving Repr, DecidableEq

/-- Strip leading and trailing whitespace from a character list (the
whitespace stripping of Python `int(s)`). -/
def stripChars (cs : List Char) : List Char :=
  ((cs.dropWhile Char.isWhitespace).reverse.dropWhile Char.isWhitespace).reverse

/-- Split a character list on a separator character, keeping empty
pieces (like Python `str.split(sep)` with an explicit separator). -/
def splitOnChar (c : Char) : List Char → List (List Char)
  | [] => [[]]
  | x :: xs =>
    if x = c then [] :: splitOnChar c xs
    else
      match splitOnChar c xs with
      | [] => [[x]]
      | y :: ys => (x :: y) :: ys

/-- Model of Python `int(s)` restricted to base-10 literals of the form
found in these CSV files: optional surrounding whitespace, an optional
sign, then decimal digits; anything else raises `ValueError`. -/
def pyInt (s : String) : Except String Int :=
  let t := stripChars s.toList
  let (sign, digits) :=
    match t with
    | '-' :: rest => ((-1 : Int), rest)
    | '+' :: rest => ((1 : Int), rest)
    | _ => ((1 : Int), t)
  if digits.length > 0 && digits.all (fun c => c.isDigit) then
    .ok (sign * Int.ofNat (digits.foldl (fun n c => n * 10 + (c.toNat - 48)) 0))
  else
    .error ("invalid literal for int() with base 10: " ++ s)

/-- A digit group of a date-time string: between lo and hi characters,
all decimal digits. -/
def digitsOk (cs : List Char) (lo hi : Nat) : Bool :=
  lo ≤ cs.length && cs.length ≤ hi && cs.all (fun c => c.isDigit)

/-- Numeric value of a digit-character list. -/
def natOfDigits (cs : List Char) : Nat :=
  cs.foldl (fun n c => n * 10 + (c.toNat - 48)) 0

/-- Gregorian leap year. -/
def isLeap (y : Nat) : Bool :=
  (y % 4 == 0 && y % 100 != 0) || y % 400 == 0

/-- Days in a month of the proleptic Gregorian calendar. -/
def daysInMonth (y m : Nat) : Nat :=
  if m = 2 then (if isLeap y then 29 else 28)
  else if m = 4 ∨ m = 6 ∨ m = 9 ∨ m = 11 then 30
  else 31

/-- Days from the epoch 1970-01-01 to the civil date y-m-d (the standard
days-from-civil computation used by calendar libraries). -/
def daysFromCivil (y m d : Int) : Int :=
  let yy := if m ≤ 2 then y - 1 else y
  let era := (if 0 ≤ yy then yy else yy - 399) / 400
  let yoe := yy - era * 400
  let mp := (m + 9) % 12
  let doy := (153 * mp + 2) / 5 + d - 1
  let doe := yoe * 365 + yoe / 4 - yoe / 100 + doy
  era * 146097 + doe - 719468

/-- Model of `int(datetime.strptime(s, "%Y-%m-%d %H:%M").timestamp())` for
a process running in UTC: strict parse of a four-digit year, one- or
two-digit month, day, hour and minute, with calendar range checks, then
the epoch-second count.  A string not matching the format raises
`ValueError` in Python, modelled as an error. -/
def strptimeYmdHM (s : String) : Except String Int :=
  match splitOnChar ' ' s.toList with
  | [d, t] =>
    match splitOnChar '-' d, splitOnChar ':' t with
    | [ys, ms, ds], [hs, mins] =>
      if digitsOk ys 4 4 && digitsOk ms 1 2 && digitsOk ds 1 2 &&
         digitsOk hs 1 2 && digitsOk mins 1 2 then
        let y := natOfDigits ys
        let mo := natOfDigits ms
        let da := natOfDigits ds
        let h := natOfDigits hs
        let mi := natOfDigits mins
        if 1 ≤ mo ∧ mo ≤ 12 ∧ 1 ≤ da ∧ da ≤ daysInMonth y mo ∧ h ≤ 23 ∧ mi ≤ 59 then
          .ok (daysFromCivil (Int.ofNat y) (Int.ofNat mo) (Int.ofNat da) * 86400
            + Int.ofNat h * 3600 + Int.ofNat mi * 60)
        else
          .error ("time data " ++ s ++ " does not match format")
      else
        .error ("time data " ++ s ++ " does not match format")
    | _, _ => .error ("time data " ++ s ++ " does not match format")
  | _ => .error ("time data " ++ s ++ " does not match format")

/-- One iteration of the `ACTIVITY_MINUTE` row loop of
`process_activity_archive` in src/zepp.py, lines 45-57: parse the
date-time, take its timestamp, parse the steps with `int(...)`, and
build `ActivitySample(TIMESTAMP=timestamp, STEPS=steps)`. -/
def parseMinuteRow (r : ZeppMinuteRow) : Except String ActivitySample := do
  let ts ← strptimeYmdHM (r.date ++ " " ++ r.time)
  let st ← pyInt r.steps
  pure { timestamp := ts, steps := some st }

/-- The `ACTIVITY_MINUTE` row loop of `process_activity_archive` in
src/zepp.py: there is no per-row exception handler, so the first failing
row raises out of the whole archive processing and the accumulated
samples are lost. -/
def process_activity_minute_rows : List ZeppMinuteRow →
    Except String (List ActivitySample)
  | [] => .ok []
  | r :: rs => do
    let s ← parseMinuteRow r
    let rest ← process_activity_minute_rows rs
    pure (s :: rest)

/-- The dedicated heart-rate point built by
`ActivitySample.to_influxdb_points` when the heart rate is valid. -/
def hrPointOf (s : ActivitySample) (tags : List (String × String)) : Point :=
  applyTags tags ((Point.mk "heart_rate" s.datetimeUs [] []).field
    "heart_rate" s.heart_rate)

/-- The dedicated steps point built by `ActivitySample.to_influxdb_points`
when steps is truthy and positive. -/
def stepsPointOf (s : ActivitySample) (tags : List (String × String)) : Point :=
  applyTags tags ((Point.mk "steps" s.datetimeUs [] []).field
    "steps" s.steps)

/-- The aggregate `activity_sample` point accumulated by
`ActivitySample.to_influxdb_points` and appended unconditionally. -/
def aggPointOf (s : ActivitySample) (tags : List (String × String)) : Point :=
  let point0 := applyTags tags (Point.mk "activity_sample" s.datetimeUs [] [])
  let point1 :=
    if s.has_valid_heart_rate then point0.field "heart_rate" s.heart_rate
    else point0
  let point2 :=
    if stepsPositive s.steps then point1.field "steps" s.steps else point1
  let point3 := condField point2 s.stress "stress"
  let point4 := condField point3 s.spo2 "spo2"
  let point5 := condField point4 s.raw_intensity "raw_intensity"
  let point6 := condField point5 s.sleep "sleep"
  let point7 := condField point6 s.deep_sleep "deep_sleep"
  let point8 := condField point7 s.rem_sleep "rem_sleep"
  condField point8 s.raw_kind "raw_kind"

/-- The heart-rate point of the wristband exporter. -/
def wbHrPointOf (s : WActivitySample) (tags : List (String × String)) : Point :=
  applyTags tags ((Point.mk "wristband_heart_rate" s.datetimeUs [] []).field
    "heart_rate" (some s.heart_rate))

/-- The steps point of the wristband exporter. -/
def wbStepsPointOf (s : WActivitySample) (tags : List (String × String)) : Point :=
  applyTags tags ((Point.mk "wristband_steps" s.datetimeUs [] []).field
    "steps" (some s.steps))

/-- The stress point of the wristband exporter; the field key is `steps`
in the source. -/
def wbStressPointOf (s : WActivitySample) (tags : List (String × String)) : Point :=
  applyTags tags ((Point.mk "wristband_stress" s.datetimeUs [] []).field
    "steps" s.stress)

/-- The SpO2 point of the wristband exporter; the field key is `steps`
in the source. -/
def wbSpo2PointOf (s : WActivitySample) (tags : List (String × String)) : Point :=
  applyTags tags ((Point.mk "wristband_spo2" s.datetimeUs [] []).field
    "steps" s.spo2)

/-- The unconditional raw-intensity point of the wristband exporter. -/
def wbRiPointOf (s : WActivitySample) (tags : List (String × String)) : Point :=
  applyTags tags ((Point.mk "wristband_raw_intensity" s.datetimeUs [] []).field
    "raw_intensity" (some s.raw_intensity))

/-- The sleep-state fan-out points of the wristband exporter (one per
present stage, in sleep-states dict order). -/
def wbSleepPointsOf (s : WActivitySample) (tags : List (String × String)) :
    List Point :=
  (sleepStates s).foldr (fun st acc =>
    match st.2 with
    | some v =>
        applyTags tags (((Point.mk "wristband_sleep_state"
          s.datetimeUs [] []).tag "sleep_type" st.1).field
          "duration" (some v)) :: acc
    | none => acc) []



/-! Helper lemmas about the point builders. -/

@[simp] theorem Point.tag_measurement (p : Point) (k v : String) :
    (p.tag k v).measurement = p.measurement := rfl

@[simp] theorem Point.tag_time (p : Point) (k v : String) :
    (p.tag k v).time = p.time := rfl

@[simp] theorem Point.tag_fields (p : Point) (k v : String) :
    (p.tag k v).fields = p.fields := rfl

@[simp] theorem Point.field_measurement (p : Point) (k : String) (v : Option Int) :
    (p.field k v).measurement = p.measurement := rfl

@[simp] theorem Point.field_time (p : Point) (k : String) (v : Option Int) :
    (p.field k v).time = p.time := rfl

@[simp] theorem Point.field_tags (p : Point) (k : String) (v : Option Int) :
    (p.field k v).tags = p.tags := rfl

@[simp] theorem Point.field_fields (p : Point) (k : String) (v : Option Int) :
    (p.field k v).fields = upsert p.fields k v := rfl

@[simp] theorem upsert_nil {α : Type} (k : String) (v : α) :
    upsert [] k v = [(k, v)] := rfl

@[simp] theorem applyTags_measurement (tags : List (String × String)) (p : Point) :
    (applyTags tags p).measurement = p.measurement := by
  induction tags generalizing p with
  | nil => rfl
  | cons kv rest ih => simpa [applyTags] using ih (p.tag kv.1 kv.2)

@[simp] theorem applyTags_time (tags : List (String × String)) (p : Point) :
    (applyTags tags p).time = p.time := by
  induction tags generalizing p with
  | nil => rfl
  | cons kv rest ih => simpa [applyTags] using ih (p.tag kv.1 kv.2)

@[simp] theorem applyTags_fields (tags : List (String × String)) (p : Point) :
    (applyTags tags p).fields = p.fields := by
  induction tags generalizing p with
  | nil => rfl
  | cons kv rest ih => simpa [applyTags] using ih (p.tag kv.1 kv.2)

@[simp] theorem condField_measurement (p : Point) (v : Option Int) (n : String) :
    (condField p v n).measurement = p.measurement := by
  unfold condField; split <;> rfl

@[simp] theorem condField_time (p : Point) (v : Option Int) (n : String) :
    (condField p v n).time = p.time := by
  unfold condField; split <;> rfl

@[simp] theorem condField_tags (p : Point) (v : Option Int) (n : String) :
    (condField p v n).tags = p.tags := by
  unfold condField; split <;> rfl

theorem to_influxdb_points_eq (s : ActivitySample) (tags : List (String × String)) :
    s.to_influxdb_points tags =
      (if s.has_valid_heart_rate then [hrPointOf s tags] else []) ++
        (if stepsPositive s.steps then [stepsPointOf s tags] else []) ++
        [aggPointOf s tags] := rfl

@[simp] theorem hrPointOf_measurement (s : ActivitySample) (tags : List (String × String)) :
    (hrPointOf s tags).measurement = "heart_rate" := by
  simp [hrPointOf]

@[simp] theorem hrPointOf_time (s : ActivitySample) (tags : List (String × String)) :
    (hrPointOf s tags).time = s.datetimeUs := by
  simp [hrPointOf]

@[simp] theorem hrPointOf_fields (s : ActivitySample) (tags : List (String × String)) :
    (hrPointOf s tags).fields = [("heart_rate", s.heart_rate)] := by
  simp [hrPointOf]

@[simp] theorem stepsPointOf_measurement (s : ActivitySample) (tags : List (String × String)) :
    (stepsPointOf s tags).measurement = "steps" := by
  simp [stepsPointOf]

@[simp] theorem stepsPointOf_time (s : ActivitySample) (tags : List (String × String)) :
    (stepsPointOf s tags).time = s.datetimeUs := by
  simp [stepsPointOf]

@[simp] theorem stepsPointOf_fields (s : ActivitySample) (tags : List (String × String)) :
    (stepsPointOf s tags).fields = [("steps", s.steps)] := by
  simp [stepsPointOf]

@[simp] theorem aggPointOf_measurement (s : ActivitySample) (tags : List (String × String)) :
    (aggPointOf s tags).measurement = "activity_sample" := by
  unfold aggPointOf
  split <;> split <;> simp

@[simp] theorem aggPointOf_time (s : ActivitySample) (tags : List (String × String)) :
    (aggPointOf s tags).time = s.datetimeUs := by
  unfold aggPointOf
  split <;> split <;> simp

theorem wristbandSamplePoints_eq (s : WActivitySample) (tags : List (String × String)) :
    wristbandSamplePoints s tags =
      (if s.has_valid_heart_rate then [wbHrPointOf s tags] else []) ++
        (if 0 < s.steps then [wbStepsPointOf s tags] else []) ++
        (if truthy s.stress then [wbStressPointOf s tags] else []) ++
        (if truthy s.spo2 then [wbSpo2PointOf s tags] else []) ++
        [wbRiPointOf s tags] ++
        (if s.sleep.isSome then wbSleepPointsOf s tags else []) := rfl

@[simp] theorem wbHrPointOf_measurement (s : WActivitySample) (tags : List (String × String)) :
    (wbHrPointOf s tags).measurement = "wristband_heart_rate" := by
  simp [wbHrPointOf]

@[simp] theorem wbStepsPointOf_measurement (s : WActivitySample) (tags : List (String × String)) :
    (wbStepsPointOf s tags).measurement = "wristband_steps" := by
  simp [wbStepsPointOf]

@[simp] theorem wbStressPointOf_measurement (s : WActivitySample) (tags : List (String × String)) :
    (wbStressPointOf s tags).measurement = "wristband_stress" := by
  simp [wbStressPointOf]

@[simp] theorem wbStressPointOf_fields (s : WActivitySample) (tags : List (String × String)) :
    (wbStressPointOf s tags).fields = [("steps", s.stress)] := by
  simp [wbStressPointOf]

@[simp] theorem wbSpo2PointOf_measurement (s : WActivitySample) (tags : List (String × String)) :
    (wbSpo2PointOf s tags).measurement = "wristband_spo2" := by
  simp [wbSpo2PointOf]

@[simp] theorem wbSpo2PointOf_fields (s : WActivitySample) (tags : List (String × String)) :
    (wbSpo2PointOf s tags).fields = [("steps", s.spo2)] := by
  simp [wbSpo2PointOf]

@[simp] theorem wbRiPointOf_measurement (s : WActivitySample) (tags : List (String × String)) :
    (wbRiPointOf s tags).measurement = "wristband_raw_intensity" := by
  simp [wbRiPointOf]

theorem mem_wbSleepPointsOf_measurement (s : WActivitySample)
    (tags : List (String × String)) (p : Point) (hp : p ∈ wbSleepPointsOf s tags) :
    p.measurement = "wristband_sleep_state" := by
  unfold wbSleepPointsOf at hp
  generalize sleepStates s = l at hp
  induction l with
  | nil => simp at hp
  | cons st rest ih =>
    simp only [List.foldr_cons] at hp
    rcases hst : st.2 with _ | v
    · rw [hst] at hp
      exact ih hp
    · rw [hst] at hp
      rcases List.mem_cons.mp hp with h | h
      · subst h
        simp
      · exact ih h

theorem find?_upsert_ne {α : Type} (l : List (String × α)) (k k' : String)
    (v : α) (h : k' ≠ k) :
    (upsert l k' v).find? (fun kv => kv.1 == k) = l.find? (fun kv => kv.1 == k) := by
  induction l with
  | nil => simp [upsert, h]
  | cons kv rest ih =>
    obtain ⟨a, b⟩ := kv
    by_cases hk : a = k'
    · subst hk
      simp [upsert, List.find?_cons, h]
    · simp only [upsert, if_neg hk]
      by_cases hak : a = k
      · subst hak
        simp [List.find?_cons]
      · simp [List.find?_cons, hak, ih]

theorem tagVal_applyTags (tags : List (String × String)) (p : Point) (k : String)
    (h : ∀ kv ∈ tags, kv.1 ≠ k) :
    (applyTags tags p).tagVal k = p.tagVal k := by
  induction tags generalizing p with
  | nil => rfl
  | cons kv rest ih =>
    have hkv : kv.1 ≠ k := h kv (by simp)
    have hrest : ∀ kv' ∈ rest, kv'.1 ≠ k := fun kv' hm => h kv' (by simp [hm])
    calc (applyTags (kv :: rest) p).tagVal k
        = (applyTags rest (p.tag kv.1 kv.2)).tagVal k := rfl
      _ = (p.tag kv.1 kv.2).tagVal k := ih (p.tag kv.1 kv.2) hrest
      _ = p.tagVal k := by
          unfold Point.tagVal Point.tag
          simp [find?_upsert_ne _ _ _ _ hkv]

/-- Membership characterization for the activity-sample synthesizer: a
returned point is the heart-rate point (when the heart rate is valid),
the steps point (when steps is truthy positive), or the unconditional
aggregate point. -/
theorem mem_to_influxdb_points {s : ActivitySample} {tags : List (String × String)}
    {p : Point} :
    p ∈ s.to_influxdb_points tags ↔
      (s.has_valid_heart_rate ∧ p = hrPointOf s tags) ∨
        (stepsPositive s.steps ∧ p = stepsPointOf s tags) ∨
        p = aggPointOf s tags := by
  rw [to_influxdb_points_eq]
  by_cases h1 : s.has_valid_heart_rate <;> by_cases h2 : stepsPositive s.steps <;>
    simp [h1, h2]

/-- C1, counterexample: a `XiaomiSleepStageSample` whose stage is absent
passes none of the emission rules, yet its point synthesis still returns
one point, and that point has an empty field mapping — refuting both
that a record contributing no meaningful measurement contributes zero
points and that no point with an empty field mapping is ever
returned. -/
theorem C1_counterexample :
    (XiaomiSleepStageSample.to_influxdb_points { timestamp := 0 } []).map
        Point.fields = [[]] ∧
      (XiaomiSleepStageSample.to_influxdb_points { timestamp := 0 } []) ≠ [] := by
  constructor <;> decide

/-- C1 (amended): every point carries exactly one measurement name, and
the dedicated heart-rate and steps points always carry at least one
field entry; but the per-record point is returned unconditionally, so a
record none of whose measurement values passes the emission rules still
contributes one point (whose field mapping may be empty) — synthesis
never returns zero points. -/
theorem C1_amended_point_invariant :
    (∀ (s : ActivitySample) (tags : List (String × String)),
      s.to_influxdb_points tags ≠ [] ∧
      ∀ p ∈ s.to_influxdb_points tags,
        (p.measurement = "heart_rate" → p.fields ≠ []) ∧
        (p.measurement = "steps" → p.fields ≠ [])) ∧
    (∀ (x : XiaomiSleepStageSample) (tags : List (String × String)),
      (x.to_influxdb_points tags).length = 1) := by
  refine ⟨fun s tags => ⟨?_, ?_⟩, fun x tags => rfl⟩
  · rw [to_influxdb_points_eq]
    simp
  · intro p hp
    rcases mem_to_influxdb_points.mp hp with ⟨h1, hp⟩ | ⟨h2, hp⟩ | hp <;> subst hp
    · exact ⟨fun hm => by simp, fun hm => by simp⟩
    · exact ⟨fun hm => by simp, fun hm => by simp⟩
    · exact ⟨fun hm => absurd hm (by simp), fun hm => absurd hm (by simp)⟩

/-- C1 amended, witness: the all-absent activity sample returns a
nonempty point list whose members satisfy the field guarantees. -/
theorem C1_amended_point_invariant_witness :
    (ActivitySample.to_influxdb_points { timestamp := 0 } [] ≠ []) ∧
      ((hrPointOf { timestamp := 0 } []).measurement = "heart_rate" →
        (hrPointOf { timestamp := 0 } []).fields ≠ []) := by
  refine ⟨(C1_amended_point_invariant.1 { timestamp := 0 } []).1, ?_⟩
  have hmem : hrPointOf { timestamp := 0 } [] ∈
      ActivitySample.to_influxdb_points { timestamp := 0 } [] := by decide
  exact ((C1_amended_point_invariant.1 { timestamp := 0 } []).2 _ hmem).1

theorem filter_ite_singleton_nil {c : Prop} [Decidable c] (q : Point)
    (f : Point → Bool) (h : f q = false) :
    List.filter f (if c then [q] else []) = [] := by
  split <;> simp [h]

/-- C2, counterexample: a record whose heart rate is absent still passes
`has_valid_heart_rate` (in Python `None != 255` and `None != 0` are both
true), so a heart-rate point carrying a null-valued `heart_rate` field is
emitted — refuting that a record with absent heart rate emits no
heart-rate field. -/
theorem C2_counterexample :
    ((ActivitySample.to_influxdb_points { timestamp := 0 } []).filter
        (fun p => p.measurement == "heart_rate")).map Point.fields =
      [[("heart_rate", none)]] := by
  decide

/-- C2 (amended): a heart-rate point is emitted exactly when the heart
rate is not the present sentinel 0 and not the present sentinel 255;
records with heart rate 0 or 255 emit no heart-rate point, as claimed,
but a record with an absent heart rate also passes the check and emits a
heart-rate point whose field value is null. -/
theorem C2_amended_heart_rate_sentinels :
    ∀ (s : ActivitySample) (tags : List (String × String)),
      ((s.to_influxdb_points tags).filter
          (fun p => p.measurement == "heart_rate")).map Point.fields =
        if s.heart_rate = some 0 ∨ s.heart_rate = some 255 then []
        else [[("heart_rate", s.heart_rate)]] := by
  intro s tags
  rw [to_influxdb_points_eq]
  have hsteps : ((stepsPointOf s tags).measurement == "heart_rate") = false := by
    rw [stepsPointOf_measurement]; decide
  have hagg : ((aggPointOf s tags).measurement == "heart_rate") = false := by
    rw [aggPointOf_measurement]; decide
  have hhr : ((hrPointOf s tags).measurement == "heart_rate") = true := by
    rw [hrPointOf_measurement]; decide
  by_cases h : s.heart_rate = some 0 ∨ s.heart_rate = some 255
  · have hv : s.has_valid_heart_rate = false := by
      rcases h with h | h <;> simp [ActivitySample.has_valid_heart_rate, h]
    by_cases h2 : stepsPositive s.steps <;>
      simp [h, hv, h2, List.filter_append, hsteps, hagg, hhr]
  · have hv : s.has_valid_heart_rate = true := by
      push_neg at h
      simp [ActivitySample.has_valid_heart_rate, h.1, h.2]
    by_cases h2 : stepsPositive s.steps <;>
      simp [h, hv, h2, List.filter_append, hsteps, hagg, hhr]

/-- C3, counterexample: an activity sample read from the
`XIAOMI_ACTIVITY_SAMPLE` table has its timestamp passed to
`datetime.fromtimestamp` with no division, so timestamp 1000 yields
points at 1000 seconds (1000000000 microseconds), not at
floor(1000 / 1000) = 1 second; and a daily-summary sample with
timestamp 1500 yields a point at 1.5 seconds (1500000 microseconds),
the true-division value, not at floor(1500 / 1000) = 1 second. -/
theorem C3_counterexample :
    ((ActivitySample.to_influxdb_points { timestamp := 1000 } []).map
        Point.time = [1000000000, 1000000000] ∧
      (1000000000 : Int) ≠ 1000 / 1000 * 1000000) ∧
    ((XiaomiDailySummarySample.to_influxdb_points { timestamp := 1500 } []).map
        Point.time = [1500000] ∧
      (1500000 : Int) ≠ 1500 / 1000 * 1000000) := by
  refine ⟨⟨by decide, by decide⟩, ⟨by decide, by decide⟩⟩

/-- C3 (amended): the Xiaomi-specific model classes (daily summary, sleep
stage, sleep time) divide the stored millisecond timestamp by 1000 with
true division, so the emitted time is exactly timestamp milliseconds
(timestamp * 1000 microseconds), sub-second part preserved rather than
floored; `ActivitySample` rows — including those read from the
`XIAOMI_ACTIVITY_SAMPLE` table — apply no division at all and use the
raw timestamp as epoch seconds. -/
theorem C3_amended_timestamp_resolution :
    (∀ (s : XiaomiDailySummarySample) (tags : List (String × String)) (p : Point),
      p ∈ s.to_influxdb_points tags → p.time = s.timestamp * 1000) ∧
    (∀ (s : XiaomiSleepStageSample) (tags : List (String × String)) (p : Point),
      p ∈ s.to_influxdb_points tags → p.time = s.timestamp * 1000) ∧
    (∀ (s : XiaomiSleepTimeSample) (tags : List (String × String)) (p : Point),
      p ∈ s.to_influxdb_points tags → p.time = s.timestamp * 1000) ∧
    (∀ (s : ActivitySample) (tags : List (String × String)) (p : Point),
      p ∈ s.to_influxdb_points tags → p.time = s.timestamp * 1000000) := by
  refine ⟨?_, ?_, ?_, ?_⟩
  · intro s tags p hp
    simp only [XiaomiDailySummarySample.to_influxdb_points,
      List.mem_singleton] at hp
    subst hp
    simp
  · intro s tags p hp
    simp only [XiaomiSleepStageSample.to_influxdb_points,
      List.mem_singleton] at hp
    subst hp
    simp
  · intro s tags p hp
    simp only [XiaomiSleepTimeSample.to_influxdb_points,
      List.mem_singleton] at hp
    subst hp
    simp
  · intro s tags p hp
    rcases mem_to_influxdb_points.mp hp with ⟨_, hp⟩ | ⟨_, hp⟩ | hp <;>
      subst hp <;> simp [ActivitySample.datetimeUs]

/-- C3 amended, witness: the four time rules evaluated at concrete
records. -/
theorem C3_amended_timestamp_resolution_witness :
    (Point.mk "xiaomi_daily_summary_sample" 1500000 [] []).time = 1500 * 1000 ∧
      (aggPointOf { timestamp := 1000 } []).time = 1000 * 1000000 := by
  constructor
  · exact C3_amended_timestamp_resolution.1 { timestamp := 1500 } [] _ (by decide)
  · exact C3_amended_timestamp_resolution.2.2.2 { timestamp := 1000 } [] _
      (mem_to_influxdb_points.mpr (Or.inr (Or.inr rfl)))

/-- C4, counterexample: a record with steps 0 and heart rate 72 yields two
points — the dedicated heart-rate point and the unconditional aggregate
`activity_sample` point — not exactly one. -/
theorem C4_counterexample :
    (ActivitySample.to_influxdb_points
        { timestamp := 0, steps := some 0, heart_rate := some 72 } []).map
        Point.measurement = ["heart_rate", "activity_sample"] ∧
      (ActivitySample.to_influxdb_points
        { timestamp := 0, steps := some 0, heart_rate := some 72 } []).length ≠ 1 := by
  constructor <;> decide

/-- C4 (amended): a record with steps 0 and heart rate 72 yields exactly
two points, the heart-rate point and the aggregate `activity_sample`
point (and zero steps points); and for every record with a present,
strictly positive step count, exactly one dedicated steps point is
emitted carrying that value. -/
theorem C4_amended_steps_and_heart_rate_points :
    (∀ (s : ActivitySample) (tags : List (String × String)),
      s.heart_rate = some 72 → s.steps = some 0 →
        (s.to_influxdb_points tags).map Point.measurement =
          ["heart_rate", "activity_sample"]) ∧
    (∀ (s : ActivitySample) (tags : List (String × String)) (n : Int),
      s.steps = some n → 0 < n →
        ((s.to_influxdb_points tags).filter
            (fun p => p.measurement == "steps")).map Point.fields =
          [[("steps", some n)]]) := by
  constructor
  · intro s tags hhr hsteps
    have hv : s.has_valid_heart_rate = true := by
      simp [ActivitySample.has_valid_heart_rate, hhr]
    have hsp : stepsPositive s.steps = false := by
      simp [stepsPositive, hsteps]
    rw [to_influxdb_points_eq]
    simp [hv, hsp]
  · intro s tags n hsteps hpos
    have hsp : stepsPositive (some n) = true := by
      simp [stepsPositive]
      omega
    have hhrm : ((hrPointOf s tags).measurement == "steps") = false := by
      rw [hrPointOf_measurement]; decide
    have haggm : ((aggPointOf s tags).measurement == "steps") = false := by
      rw [aggPointOf_measurement]; decide
    have hstm : ((stepsPointOf s tags).measurement == "steps") = true := by
      rw [stepsPointOf_measurement]; decide
    rw [to_influxdb_points_eq]
    by_cases hv : s.has_valid_heart_rate <;>
      simp [hv, List.filter_append, hhrm, haggm, hstm, hsteps, hsp]

/-- C4 amended, witness: the scenario record and a positive-steps record,
evaluated concretely. -/
theorem C4_amended_steps_and_heart_rate_points_witness :
    (ActivitySample.to_influxdb_points
        { timestamp := 0, steps := some 0, heart_rate := some 72 } []).map
        Point.measurement = ["heart_rate", "activity_sample"] ∧
      ((ActivitySample.to_influxdb_points
          { timestamp := 0, steps := some 7 } []).filter
          (fun p => p.measurement == "steps")).map Point.fields =
        [[("steps", some 7)]] := by
  constructor
  · exact C4_amended_steps_and_heart_rate_points.1
      { timestamp := 0, steps := some 0, heart_rate := some 72 } [] rfl rfl
  · exact C4_amended_steps_and_heart_rate_points.2
      { timestamp := 0, steps := some 7 } [] 7 rfl (by decide)

theorem filter_ite_nil {c : Prop} [Decidable c] (l : List Point)
    (f : Point → Bool) (h : List.filter f l = []) :
    List.filter f (if c then l else []) = [] := by
  split <;> simp [h]

/-- C5, counterexample: the models-module synthesizer (used by the
gadgetbridge and zepp exporters) applied to a record with sleep
(light) 30, deep absent and rem 20 emits no point at all carrying a
`sleep_type` tag or a `duration` field — the sleep values land as fields
on the single aggregate point instead of fanning out into two
sleep-state points. -/
theorem C5_counterexample :
    ((ActivitySample.to_influxdb_points
        { timestamp := 0, sleep := some 30, rem_sleep := some 20 } []).filter
        (fun p => (p.tagVal "sleep_type").isSome)) = [] ∧
      ((ActivitySample.to_influxdb_points
        { timestamp := 0, sleep := some 30, rem_sleep := some 20 } []).filter
        (fun p => p.fields.any (fun kv => kv.1 == "duration"))) = [] := by
  constructor <;> decide

/-- C5 (amended): only the wristband exporter of src/main.py fans sleep
out into per-stage points, and only when the light (`sleep`) column is
present: a record with light l, deep absent and rem r yields exactly two
`wristband_sleep_state` points, tagged `sleep_type` light and rem with
`duration` fields l and r, the absent deep stage skipped individually;
when the `sleep` column is absent no sleep-state point is emitted at
all, even for present deep or rem values.  The models-module
synthesizer used by the gadgetbridge and zepp exporters does not fan
out (see the counterexample). -/
theorem C5_amended_sleep_fanout :
    (∀ (s : WActivitySample) (tags : List (String × String)) (l r : Int),
      (∀ kv ∈ tags, kv.1 ≠ "sleep_type") →
      s.sleep = some l → s.deep_sleep = none → s.rem_sleep = some r →
        ((wristbandSamplePoints s tags).filter
            (fun p => p.measurement == "wristband_sleep_state")).map
          (fun p => (p.tagVal "sleep_type", p.fields)) =
        [(some "light", [("duration", some l)]),
         (some "rem", [("duration", some r)])]) ∧
    (∀ (s : WActivitySample) (tags : List (String × String)),
      s.sleep = none →
        (wristbandSamplePoints s tags).filter
          (fun p => p.measurement == "wristband_sleep_state") = []) := by
  constructor
  · intro s tags l r htags h1 h2 h3
    rw [wristbandSamplePoints_eq]
    have hm1 : ((wbHrPointOf s tags).measurement == "wristband_sleep_state") = false := by
      rw [wbHrPointOf_measurement]; decide
    have hm2 : ((wbStepsPointOf s tags).measurement == "wristband_sleep_state") = false := by
      rw [wbStepsPointOf_measurement]; decide
    have hm3 : ((wbStressPointOf s tags).measurement == "wristband_sleep_state") = false := by
      rw [wbStressPointOf_measurement]; decide
    have hm4 : ((wbSpo2PointOf s tags).measurement == "wristband_sleep_state") = false := by
      rw [wbSpo2PointOf_measurement]; decide
    have hm5 : ((wbRiPointOf s tags).measurement == "wristband_sleep_state") = false := by
      rw [wbRiPointOf_measurement]; decide
    have hsome : s.sleep.isSome := by rw [h1]; rfl
    have hfold : wbSleepPointsOf s tags =
        [applyTags tags (((Point.mk "wristband_sleep_state" s.datetimeUs [] []).tag
            "sleep_type" "light").field "duration" (some l)),
         applyTags tags (((Point.mk "wristband_sleep_state" s.datetimeUs [] []).tag
            "sleep_type" "rem").field "duration" (some r))] := by
      simp [wbSleepPointsOf, sleepStates, h1, h2, h3]
    have htv1 : (applyTags tags (((Point.mk "wristband_sleep_state"
        s.datetimeUs [] []).tag "sleep_type" "light").field
        "duration" (some l))).tagVal "sleep_type" = some "light" := by
      rw [tagVal_applyTags _ _ _ htags]; rfl
    have htv2 : (applyTags tags (((Point.mk "wristband_sleep_state"
        s.datetimeUs [] []).tag "sleep_type" "rem").field
        "duration" (some r))).tagVal "sleep_type" = some "rem" := by
      rw [tagVal_applyTags _ _ _ htags]; rfl
    have hf1 : List.filter (fun p => p.measurement == "wristband_sleep_state")
        (if s.has_valid_heart_rate = true then [wbHrPointOf s tags] else []) = [] :=
      filter_ite_singleton_nil _ _ hm1
    have hf2 : List.filter (fun p => p.measurement == "wristband_sleep_state")
        (if 0 < s.steps then [wbStepsPointOf s tags] else []) = [] :=
      filter_ite_singleton_nil _ _ hm2
    have hf3 : List.filter (fun p => p.measurement == "wristband_sleep_state")
        (if truthy s.stress = true then [wbStressPointOf s tags] else []) = [] :=
      filter_ite_singleton_nil _ _ hm3
    have hf4 : List.filter (fun p => p.measurement == "wristband_sleep_state")
        (if truthy s.spo2 = true then [wbSpo2PointOf s tags] else []) = [] :=
      filter_ite_singleton_nil _ _ hm4
    simp [hsome, List.filter_append, hf1, hf2, hf3, hf4, hm5, hfold,
      htv1, htv2]
  · intro s tags hnone
    rw [wristbandSamplePoints_eq]
    have hm1 : ((wbHrPointOf s tags).measurement == "wristband_sleep_state") = false := by
      rw [wbHrPointOf_measurement]; decide
    have hm2 : ((wbStepsPointOf s tags).measurement == "wristband_sleep_state") = false := by
      rw [wbStepsPointOf_measurement]; decide
    have hm3 : ((wbStressPointOf s tags).measurement == "wristband_sleep_state") = false := by
      rw [wbStressPointOf_measurement]; decide
    have hm4 : ((wbSpo2PointOf s tags).measurement == "wristband_sleep_state") = false := by
      rw [wbSpo2PointOf_measurement]; decide
    have hm5 : ((wbRiPointOf s tags).measurement == "wristband_sleep_state") = false := by
      rw [wbRiPointOf_measurement]; decide
    have hf1 : List.filter (fun p => p.measurement == "wristband_sleep_state")
        (if s.has_valid_heart_rate = true then [wbHrPointOf s tags] else []) = [] :=
      filter_ite_singleton_nil _ _ hm1
    have hf2 : List.filter (fun p => p.measurement == "wristband_sleep_state")
        (if 0 < s.steps then [wbStepsPointOf s tags] else []) = [] :=
      filter_ite_singleton_nil _ _ hm2
    have hf3 : List.filter (fun p => p.measurement == "wristband_sleep_state")
        (if truthy s.stress = true then [wbStressPointOf s tags] else []) = [] :=
      filter_ite_singleton_nil _ _ hm3
    have hf4 : List.filter (fun p => p.measurement == "wristband_sleep_state")
        (if truthy s.spo2 = true then [wbSpo2PointOf s tags] else []) = [] :=
      filter_ite_singleton_nil _ _ hm4
    simp [hnone, List.filter_append, hf1, hf2, hf3, hf4, hm5]

/-- C5 amended, witness: the scenario record, light 30 / deep absent /
rem 20, under the wristband exporter. -/
theorem C5_amended_sleep_fanout_witness :
    ((wristbandSamplePoints
        { timestamp := 0, device_id := 1, user_id := 1, raw_intensity := 0,
          steps := 0, raw_kind := 0, heart_rate := 0,
          sleep := some 30, rem_sleep := some 20 } []).filter
        (fun p => p.measurement == "wristband_sleep_state")).map
      (fun p => (p.tagVal "sleep_type", p.fields)) =
      [(some "light", [("duration", some 30)]),
       (some "rem", [("duration", some 20)])] := by
  exact C5_amended_sleep_fanout.1
    { timestamp := 0, device_id := 1, user_id := 1, raw_intensity := 0,
      steps := 0, raw_kind := 0, heart_rate := 0,
      sleep := some 30, rem_sleep := some 20 } [] 30 20
    (by simp) rfl rfl rfl

/-- C6, counterexample: one unparseable row (non-numeric steps) among
valid rows in a Zepp CSV archive makes the whole archive processing
raise, losing the valid rows, instead of yielding the valid rows plus a
logged skip — the CSV loops of src/zepp.py have no per-row exception
handler. -/
theorem C6_counterexample :
    process_activity_minute_rows
        [{ date := "2024-01-01", time := "00:00", steps := "100" },
         { date := "2024-01-01", time := "00:01", steps := "abc" },
         { date := "2024-01-01", time := "00:02", steps := "200" }] =
      Except.error "invalid literal for int() with base 10: abc" := by
  rfl

/-- C6 (amended): per-row isolation holds for the database cursor
sources — the row loops of src/gadgetbridge.py validate each row inside
a try/except and a malformed row is skipped, every remaining row still
parsed — but not for the CSV-archive rows of src/zepp.py, where a
malformed row anywhere in the file aborts the whole archive
processing. -/
theorem C6_amended_row_isolation :
    (∀ (xs : List DbRow) (bad : DbRow) (ys : List DbRow) (e : String),
      validateActivitySample bad = Except.error e →
        get_huami_activity_samples (xs ++ bad :: ys) =
          get_huami_activity_samples xs ++ get_huami_activity_samples ys) ∧
    (∀ (xs : List ZeppMinuteRow) (bad : ZeppMinuteRow) (ys : List ZeppMinuteRow)
        (e : String),
      parseMinuteRow bad = Except.error e →
        (process_activity_minute_rows (xs ++ bad :: ys)).toOption = none) := by
  constructor
  · intro xs bad ys e hbad
    induction xs with
    | nil => simp [get_huami_activity_samples, hbad]
    | cons x rest ih =>
      cases hx : validateActivitySample x with
      | ok s => simp [get_huami_activity_samples, hx, ih]
      | error e2 => simp [get_huami_activity_samples, hx, ih]
  · intro xs bad ys e hbad
    induction xs with
    | nil =>
      simp only [List.nil_append, process_activity_minute_rows]
      rw [hbad]
      rfl
    | cons x rest ih =>
      simp only [List.cons_append, process_activity_minute_rows]
      cases hx : parseMinuteRow x with
      | error e2 => rfl
      | ok s =>
        cases hr : process_activity_minute_rows (rest ++ bad :: ys) with
        | ok lst =>
          rw [hr] at ih
          simp [Except.toOption] at ih
        | error e3 => rfl

/-- C6 amended, witness: both halves evaluated on a concrete bad row
among concrete valid rows. -/
theorem C6_amended_row_isolation_witness :
    get_huami_activity_samples
        [DbRow.mk [("TIMESTAMP", some 10), ("STEPS", some 5)],
         DbRow.mk [("STEPS", some 7)],
         DbRow.mk [("TIMESTAMP", some 20)]] =
      get_huami_activity_samples [DbRow.mk [("TIMESTAMP", some 10), ("STEPS", some 5)]] ++
        get_huami_activity_samples [DbRow.mk [("TIMESTAMP", some 20)]] ∧
      (process_activity_minute_rows
          [{ date := "2024-01-01", time := "00:00", steps := "100" },
           { date := "2024-01-01", time := "00:01", steps := "abc" },
           { date := "2024-01-01", time := "00:02", steps := "200" }]).toOption =
        none := by
  constructor
  · exact C6_amended_row_isolation.1
      [DbRow.mk [("TIMESTAMP", some 10), ("STEPS", some 5)]]
      (DbRow.mk [("STEPS", some 7)])
      [DbRow.mk [("TIMESTAMP", some 20)]]
      "validation error: TIMESTAMP field required" rfl
  · exact C6_amended_row_isolation.2
      [{ date := "2024-01-01", time := "00:00", steps := "100" }]
      { date := "2024-01-01", time := "00:01", steps := "abc" }
      [{ date := "2024-01-01", time := "00:02", steps := "200" }]
      "invalid literal for int() with base 10: abc" rfl

/-- C7 (confirmed): a device identifier with no matching row in the
device table resolves, through `get_device_info` and `to_tags`, to four
string tags all equal to the literal `unknown`; tag values are never
absent, by construction of `to_tags`. -/
theorem C7_unknown_device_tags :
    ∀ (devices : List Device) (attrs : List DeviceAttributes) (did : Int),
      devices.find? (fun d => d.id == did) = none →
        (get_device_info devices attrs did).to_tags =
          [("device_name", "unknown"), ("device_manufacturer", "unknown"),
           ("device_model", "unknown"), ("device_firmware", "unknown")] := by
  intro devices attrs did h
  unfold get_device_info queryDeviceJoin
  rw [h]
  rfl

/-- C7 witness: the empty device table. -/
theorem C7_unknown_device_tags_witness :
    (get_device_info [] [] 7).to_tags =
      [("device_name", "unknown"), ("device_manufacturer", "unknown"),
       ("device_model", "unknown"), ("device_firmware", "unknown")] :=
  C7_unknown_device_tags [] [] 7 rfl

/-- C8 (confirmed): point synthesis is a pure, deterministic function of
the record and the tag set — synthesizing twice from equal inputs yields
structurally identical point lists (same measurement names, tags, fields
and timestamps, since `Point` equality is componentwise). -/
theorem C8_synthesis_pure :
    ∀ (s₁ s₂ : ActivitySample) (t₁ t₂ : List (String × String)),
      s₁ = s₂ → t₁ = t₂ →
        s₁.to_influxdb_points t₁ = s₂.to_influxdb_points t₂ := by
  intro s₁ s₂ t₁ t₂ hs ht
  subst hs
  subst ht
  rfl

/-- C8 witness: two syntactically separate synthesis calls on the same
concrete record and tag set coincide. -/
theorem C8_synthesis_pure_witness :
    ActivitySample.to_influxdb_points
        { timestamp := 5, heart_rate := some 80, steps := some 3 }
        [("source", "zepp")] =
      ActivitySample.to_influxdb_points
        { timestamp := 5, heart_rate := some 80, steps := some 3 }
        [("source", "zepp")] :=
  C8_synthesis_pure _ _ _ _ rfl rfl

/-- C9 (confirmed): the gadgetbridge export loop tests `if not device_id`
before synthesizing, so a sample whose device id is absent or equal to
the integer 0 (both falsy in Python) is skipped entirely and contributes
zero points to the batch. -/
theorem C9_falsy_device_id_skipped :
    ∀ (devices : List Device) (attrs : List DeviceAttributes)
      (s : ActivitySample) (rest : List ActivitySample),
      s.device_id = none ∨ s.device_id = some 0 →
        gadgetbridgeSamplePoints devices attrs s = [] ∧
          gadgetbridgeBatch devices attrs (s :: rest) =
            gadgetbridgeBatch devices attrs rest := by
  intro devices attrs s rest h
  have hp : gadgetbridgeSamplePoints devices attrs s = [] := by
    rcases h with h | h <;> simp [gadgetbridgeSamplePoints, h]
  exact ⟨hp, by simp [gadgetbridgeBatch, hp]⟩

/-- C9 witness: a sample with device id 0 and one with no device id both
contribute nothing. -/
theorem C9_falsy_device_id_skipped_witness :
    gadgetbridgeSamplePoints [] [] { timestamp := 0, device_id := some 0 } = [] ∧
      gadgetbridgeBatch [] [] [{ timestamp := 0 }] = gadgetbridgeBatch [] [] [] := by
  constructor
  · exact (C9_falsy_device_id_skipped [] []
      { timestamp := 0, device_id := some 0 } [] (Or.inr rfl)).1
  · exact (C9_falsy_device_id_skipped [] [] { timestamp := 0 } [] (Or.inl rfl)).2

/-- C10 (confirmed): in the wristband exporter, the stress and SpO2
points store their measurement value under the field key `steps` — the
`wristband_stress` and `wristband_spo2` points of src/main.py call
`.field("steps", value=...)`, and no field named `stress` or `spo2` is
ever created. -/
theorem C10_stress_spo2_under_steps_key :
    ∀ (s : WActivitySample) (tags : List (String × String)),
      (truthy s.stress = true →
        ((wristbandSamplePoints s tags).filter
            (fun p => p.measurement == "wristband_stress")).map Point.fields =
          [[("steps", s.stress)]]) ∧
      (truthy s.spo2 = true →
        ((wristbandSamplePoints s tags).filter
            (fun p => p.measurement == "wristband_spo2")).map Point.fields =
          [[("steps", s.spo2)]]) := by
  intro s tags
  constructor
  · intro hst
    rw [wristbandSamplePoints_eq]
    have hm1 : ((wbHrPointOf s tags).measurement == "wristband_stress") = false := by
      rw [wbHrPointOf_measurement]; decide
    have hm2 : ((wbStepsPointOf s tags).measurement == "wristband_stress") = false := by
      rw [wbStepsPointOf_measurement]; decide
    have hm3 : ((wbStressPointOf s tags).measurement == "wristband_stress") = true := by
      rw [wbStressPointOf_measurement]; decide
    have hm4 : ((wbSpo2PointOf s tags).measurement == "wristband_stress") = false := by
      rw [wbSpo2PointOf_measurement]; decide
    have hm5 : ((wbRiPointOf s tags).measurement == "wristband_stress") = false := by
      rw [wbRiPointOf_measurement]; decide
    have hf1 : List.filter (fun p => p.measurement == "wristband_stress")
        (if s.has_valid_heart_rate = true then [wbHrPointOf s tags] else []) = [] :=
      filter_ite_singleton_nil _ _ hm1
    have hf2 : List.filter (fun p => p.measurement == "wristband_stress")
        (if 0 < s.steps then [wbStepsPointOf s tags] else []) = [] :=
      filter_ite_singleton_nil _ _ hm2
    have hf4 : List.filter (fun p => p.measurement == "wristband_stress")
        (if truthy s.spo2 = true then [wbSpo2PointOf s tags] else []) = [] :=
      filter_ite_singleton_nil _ _ hm4
    have hf6 : List.filter (fun p => p.measurement == "wristband_stress")
        (if s.sleep.isSome then wbSleepPointsOf s tags else []) = [] := by
      refine filter_ite_nil _ _ (List.filter_eq_nil_iff.mpr fun p hp => ?_)
      rw [mem_wbSleepPointsOf_measurement s tags p hp]
      decide
    simp [hst, List.filter_append, hf1, hf2, hm3, hf4, hm5, hf6]
  · intro hsp
    rw [wristbandSamplePoints_eq]
    have hm1 : ((wbHrPointOf s tags).measurement == "wristband_spo2") = false := by
      rw [wbHrPointOf_measurement]; decide
    have hm2 : ((wbStepsPointOf s tags).measurement == "wristband_spo2") = false := by
      rw [wbStepsPointOf_measurement]; decide
    have hm3 : ((wbStressPointOf s tags).measurement == "wristband_spo2") = false := by
      rw [wbStressPointOf_measurement]; decide
    have hm4 : ((wbSpo2PointOf s tags).measurement == "wristband_spo2") = true := by
      rw [wbSpo2PointOf_measurement]; decide
    have hm5 : ((wbRiPointOf s tags).measurement == "wristband_spo2") = false := by
      rw [wbRiPointOf_measurement]; decide
    have hf1 : List.filter (fun p => p.measurement == "wristband_spo2")
        (if s.has_valid_heart_rate = true then [wbHrPointOf s tags] else []) = [] :=
      filter_ite_singleton_nil _ _ hm1
    have hf2 : List.filter (fun p => p.measurement == "wristband_spo2")
        (if 0 < s.steps then [wbStepsPointOf s tags] else []) = [] :=
      filter_ite_singleton_nil _ _ hm2
    have hf3 : List.filter (fun p => p.measurement == "wristband_spo2")
        (if truthy s.stress = true then [wbStressPointOf s tags] else []) = [] :=
      filter_ite_singleton_nil _ _ hm3
    have hf6 : List.filter (fun p => p.measurement == "wristband_spo2")
        (if s.sleep.isSome then wbSleepPointsOf s tags else []) = [] := by
      refine filter_ite_nil _ _ (List.filter_eq_nil_iff.mpr fun p hp => ?_)
      rw [mem_wbSleepPointsOf_measurement s tags p hp]
      decide
    simp [hsp, List.filter_append, hf1, hf2, hf3, hm4, hm5, hf6]

/-- C10 witness: a concrete sample with stress 55 and SpO2 97. -/
theorem C10_stress_spo2_under_steps_key_witness :
    ((wristbandSamplePoints
        { timestamp := 0, device_id := 1, user_id := 1, raw_intensity := 0,
          steps := 0, raw_kind := 0, heart_rate := 0,
          stress := some 55, spo2 := some 97 } []).filter
        (fun p => p.measurement == "wristband_stress")).map Point.fields =
      [[("steps", some 55)]] ∧
      ((wristbandSamplePoints
          { timestamp := 0, device_id := 1, user_id := 1, raw_intensity := 0,
            steps := 0, raw_kind := 0, heart_rate := 0,
            stress := some 55, spo2 := some 97 } []).filter
          (fun p => p.measurement == "wristband_spo2")).map Point.fields =
        [[("steps", some 97)]] := by
  constructor
  · exact (C10_stress_spo2_under_steps_key
      { timestamp := 0, device_id := 1, user_id := 1, raw_intensity := 0,
        steps := 0, raw_kind := 0, heart_rate := 0,
        stress := some 55, spo2 := some 97 } []).1 (by decide)
  · exact (C10_stress_spo2_under_steps_key
      { timestamp := 0, device_id := 1, user_id := 1, raw_intensity := 0,
        steps := 0, raw_kind := 0, heart_rate := 0,
        stress := some 55, spo2 := some 97 } []).2 (by decide)
